import Mathlib

/-!
# Verification of the LicenseSpring MCP authentication module

Shallow embedding of the auth-header construction code of the
`licensespring-mcp` repository (`src/utils/auth.ts` and the tri-modal
`LicenseApiClient` request interceptor in `src/utils/http.ts`) together
with proofs of the specification's claims about it.

Modelling conventions:
* JavaScript optional string parameters become `Option String`; JavaScript
  truthiness of a string value (`undefined`/`''` falsy, any other string
  truthy) is `jsTruthy`.
* The external Node `crypto` primitive
  `createHmac('sha256', key).update(msg).digest('base64')` is an external
  collaborator, not code of this repository; it is modelled as an explicit
  function parameter `hmac : String → String → String` over which every
  theorem quantifies universally.
* The single call `new Date().toUTCString()` made per request is modelled
  by an explicit `now : String` parameter; threading one parameter to every
  use site models the fact that the source reads the clock once per call.
* `process.env.NODE_ENV === 'test'` is the boolean parameter `nodeEnvTest`.
* `console.log`/`console.warn` output is returned as a list of strings;
  a thrown `Error` is `Except.error` of its message.
-/

/-- JavaScript truthiness of an optional string value: `undefined` and the
empty string are falsy, every other string is truthy. -/
def jsTruthy : Option String → Bool
  | none => false
  | some s => decide (s ≠ "")

/-- Model of `String.prototype.startsWith`: `jsStartsWith s pre` is
`s.startsWith(pre)`. -/
def jsStartsWith (s pre : String) : Bool :=
  pre.toList.isPrefixOf s.toList

/-- The canonical signing string built by `generateLicenseApiSignature`
(`src/utils/auth.ts` lines 13–18): the local variable `signingString`,
starting from the template literal `licenseSpring\ndate: ${date}` and,
when both `licenseKey` and `hardwareId` are truthy, extended by
`\n${licenseKey}\n${hardwareId}\n${apiKey}`. -/
def licenseApiSigningString (apiKey date : String)
    (licenseKey hardwareId : Option String) : String :=
  let signingString := "licenseSpring\ndate: " ++ date
  if jsTruthy licenseKey && jsTruthy hardwareId then
    signingString ++ "\n" ++ licenseKey.getD "" ++ "\n" ++ hardwareId.getD ""
      ++ "\n" ++ apiKey
  else
    signingString

/-- `generateLicenseApiSignature` (`src/utils/auth.ts` lines 6–23):
HMAC-SHA256 of the canonical signing string, keyed by `sharedKey`,
base64-encoded.  The external crypto primitive is the parameter `hmac`. -/
def generateLicenseApiSignature (hmac : String → String → String)
    (sharedKey apiKey date : String)
    (licenseKey hardwareId : Option String) : String :=
  hmac sharedKey (licenseApiSigningString apiKey date licenseKey hardwareId)

/-- The record `{ date, authorization }` returned by
`generateLicenseApiAuthHeader` and attached to outgoing requests as the
`Date` and `Authorization` HTTP headers. -/
structure AuthHeader where
  date : String
  authorization : String
  deriving DecidableEq

/-- `generateLicenseApiAuthHeader` (`src/utils/auth.ts` lines 28–40):
reads the clock once (`now`), signs, and assembles the `Authorization`
value from the template literal
`algorithm="hmac-sha256",headers="date",signature="${signature}",apikey="${apiKey}"`. -/
def generateLicenseApiAuthHeader (hmac : String → String → String)
    (sharedKey apiKey : String) (licenseKey hardwareId : Option String)
    (now : String) : AuthHeader :=
  let date := now
  let signature :=
    generateLicenseApiSignature hmac sharedKey apiKey date licenseKey hardwareId
  { date := date,
    authorization :=
      "algorithm=\"hmac-sha256\",headers=\"date\",signature=\"" ++ signature
        ++ "\",apikey=\"" ++ apiKey ++ "\"" }

/-- `generateManagementApiAuthHeader` (`src/utils/auth.ts` lines 45–47):
the template literal `Api-Key ${apiKey}`. -/
def generateManagementApiAuthHeader (apiKey : String) : String :=
  "Api-Key " ++ apiKey

/-- The three operation modes of the License API client. -/
inductive AuthMode where
  | test
  | enhanced
  | limited
  deriving DecidableEq

/-- The mode computation performed once in the `LicenseApiClient`
constructor: `isTestMode = apiKey.startsWith('test-') ||
process.env.NODE_ENV === 'test'`, `hasSharedKey = !!sharedKey &&
!isTestMode`, and the three-way branch of the request interceptor. -/
def clientAuthMode (apiKey : String) (sharedKey : Option String)
    (nodeEnvTest : Bool) : AuthMode :=
  let isTestMode := jsStartsWith apiKey "test-" || nodeEnvTest
  let hasSharedKey := jsTruthy sharedKey && !isTestMode
  if isTestMode then .test
  else if hasSharedKey then .enhanced
  else .limited

/-- The tri-modal request interceptor installed by the `LicenseApiClient`
constructor: test mode sets a mock header with the fixed placeholder
signature `test-signature`; enhanced mode calls
`generateLicenseApiAuthHeader(this.sharedKey!, this.apiKey)`; otherwise
the header is the template literal `apikey="${this.apiKey}"`. -/
def interceptRequest (hmac : String → String → String) (apiKey : String)
    (sharedKey : Option String) (nodeEnvTest : Bool) (now : String) :
    AuthHeader :=
  let isTestMode := jsStartsWith apiKey "test-" || nodeEnvTest
  let hasSharedKey := jsTruthy sharedKey && !isTestMode
  if isTestMode then
    { date := now,
      authorization :=
        "algorithm=\"hmac-sha256\",headers=\"date\",signature=\"test-signature\",apikey=\""
          ++ apiKey ++ "\"" }
  else if hasSharedKey then
    generateLicenseApiAuthHeader hmac (sharedKey.getD "") apiKey none none now
  else
    { date := now, authorization := "apikey=\"" ++ apiKey ++ "\"" }

/-- The request interceptor of the legacy `LicenseApiClient` variant in
`src/utils/http.ts`, which unconditionally calls
`generateLicenseApiAuthHeader(this.sharedKey, this.apiKey)` with a
required (possibly empty) shared key. -/
def interceptRequestLegacy (hmac : String → String → String)
    (apiKey sharedKey now : String) : AuthHeader :=
  generateLicenseApiAuthHeader hmac sharedKey apiKey none none now

/-- `validateLicenseApiAuth` (`src/utils/auth.ts` lines 54–74): throws when
the primary key is JS-falsy, otherwise logs a mode-dependent diagnostic and
returns.  The returned list collects the `console.log`/`console.warn`
lines. -/
def validateLicenseApiAuth (apiKey sharedKey : Option String)
    (nodeEnvTest : Bool) : Except String (List String) :=
  if !jsTruthy apiKey then
    .error "LICENSE_API_KEY is required as the primary authentication method for License API operations"
  else
    let isTestMode := jsStartsWith (apiKey.getD "") "test-" || nodeEnvTest
    let hasSharedKey := jsTruthy sharedKey && !isTestMode
    if isTestMode then
      .ok ["⚠️  Running in TEST MODE - API calls will use mock authentication",
           "   Using LICENSE_API_KEY for test authentication"]
    else if hasSharedKey then
      .ok ["✅ License API authentication configured with LICENSE_API_KEY (primary) and LICENSE_SHARED_KEY (enhanced security)"]
    else
      .ok ["✅ License API authentication configured with LICENSE_API_KEY (primary authentication method)",
           "ℹ️  LICENSE_SHARED_KEY not provided - this is optional for organizations using shared API settings",
           "   The MCP server will use LICENSE_API_KEY as the primary authentication method",
           "   If your organization requires shared key authentication, please provide LICENSE_SHARED_KEY"]

/-- A concrete stand-in for the external HMAC-SHA256-base64 primitive, used
only to instantiate universally quantified statements at concrete points. -/
def oracleHmac (key msg : String) : String :=
  key ++ ":" ++ msg

/-! ## Helper lemmas -/

/-- An occurrence of a pattern starting with `c` inside `a ++ b` lies in `b`
whenever `c` does not occur in `a`. -/
lemma cons_infix_append_right {c : Char} {p a b : List Char} (hc : c ∉ a)
    (h : (c :: p) <:+: a ++ b) : (c :: p) <:+: b := by
  induction a with
  | nil => simpa using h
  | cons x xs ih =>
    rw [List.cons_append] at h
    rcases List.infix_cons_iff.mp h with hpre | hinf
    · rcases List.cons_prefix_cons.mp hpre with ⟨h1, -⟩
      subst h1
      exact absurd (List.mem_cons_self _ _) hc
    · exact ih (fun hm => hc (List.mem_cons_of_mem _ hm)) hinf

/-- The pattern `signature=` does not occur in `apikey="<k>"` when it does
not occur in `k` itself: it cannot start inside the literal prefix (which
contains no `s`) and cannot reach into the closing quote (it ends in `=`). -/
lemma signature_not_infix_apikey_wrap {k : String}
    (hk : ¬ "signature=".toList <:+: k.toList)
    (h : "signature=".toList <:+: ("apikey=\"" ++ k ++ "\"").toList) : False := by
  have hdata : ("apikey=\"" ++ k ++ "\"").toList
      = "apikey=\"".toList ++ (k.toList ++ [('\"' : Char)]) := by
    cases k with
    | mk d => simp [String.toList, String.append]
  rw [hdata] at h
  have hsig : "signature=".toList = ('s' : Char) :: "ignature=".toList := by decide
  rw [hsig] at h
  have h2 : ('s' : Char) :: "ignature=".toList <:+: k.toList ++ [('\"' : Char)] :=
    cons_infix_append_right (by decide) h
  rw [← hsig] at h2
  have h3 := List.reverse_infix.mpr h2
  rw [List.reverse_append] at h3
  have hrev : ("signature=".toList).reverse = ('=' : Char) :: "erutangis".toList := by
    decide
  rw [hrev] at h3
  have h4 : ('=' : Char) :: "erutangis".toList <:+: (k.toList).reverse := by
    refine cons_infix_append_right (a := [('\"' : Char)]) (by decide) ?h
    simpa using h3
  rw [← hrev] at h4
  exact hk (List.reverse_infix.mp h4)

lemma jsTruthy_some_empty : jsTruthy (some "") = false := by decide

lemma jsTruthy_none : jsTruthy none = false := by decide

lemma string_split_tag : ("licenseSpring" ++ "\n" ++ "date: " : String)
    = "licenseSpring\ndate: " := by decide

lemma str_eq_of_data {s t : String} (h : s.data = t.data) : s = t := by
  cases s
  cases t
  exact congrArg String.mk h

lemma str_data_append (s t : String) : (s ++ t).data = s.data ++ t.data := rfl

/-! ## Claim theorems -/

/-- C1: For every shared secret, primary key and timestamp string, the
canonical signing string hashed by `generateLicenseApiSignature` is the
fixed literal tag `licenseSpring`, a newline, then `date: ` concatenated
with the timestamp; and exactly when both a license identifier and a
hardware identifier are supplied (truthy), three more newline-separated
segments are appended in order: license identifier, hardware identifier,
primary key; if either identifier is missing, the base string alone is
signed. -/
theorem C1_canonical_signing_string (hmac : String → String → String)
    (sharedKey apiKey date : String) (licenseKey hardwareId : Option String) :
    generateLicenseApiSignature hmac sharedKey apiKey date licenseKey hardwareId
      = hmac sharedKey (licenseApiSigningString apiKey date licenseKey hardwareId)
    ∧ licenseApiSigningString apiKey date licenseKey hardwareId
      = (if jsTruthy licenseKey && jsTruthy hardwareId then
          "licenseSpring" ++ "\n" ++ "date: " ++ date ++ "\n" ++ licenseKey.getD ""
            ++ "\n" ++ hardwareId.getD "" ++ "\n" ++ apiKey
        else
          "licenseSpring" ++ "\n" ++ "date: " ++ date) := by
  refine ⟨rfl, ?_⟩
  unfold licenseApiSigningString
  cases h : jsTruthy licenseKey && jsTruthy hardwareId <;>
    simp only [h, Bool.false_eq_true, if_false, if_true, ite_false, ite_true] <;>
    rw [← string_split_tag]

/-- C2: the authorization value returned by `generateLicenseApiAuthHeader`
(signed mode) is exactly
`algorithm="hmac-sha256",headers="date",signature="<base64 signature>",apikey="<primary key>"`
with no whitespace around commas, double-quoted attribute values, and that
exact field order, where the signature is the (base64-encoded HMAC-SHA256)
external primitive applied to the canonical string and keyed by the shared
secret. -/
theorem C2_auth_header_format (hmac : String → String → String)
    (sharedKey apiKey now : String) (licenseKey hardwareId : Option String) :
    (generateLicenseApiAuthHeader hmac sharedKey apiKey licenseKey hardwareId now).authorization
      = "algorithm=\"hmac-sha256\"" ++ "," ++ "headers=\"date\"" ++ ","
        ++ "signature=\""
        ++ hmac sharedKey (licenseApiSigningString apiKey now licenseKey hardwareId)
        ++ "\"" ++ "," ++ "apikey=\"" ++ apiKey ++ "\"" := by
  show "algorithm=\"hmac-sha256\",headers=\"date\",signature=\""
      ++ hmac sharedKey (licenseApiSigningString apiKey now licenseKey hardwareId)
      ++ "\",apikey=\"" ++ apiKey ++ "\"" = _
  apply str_eq_of_data
  simp only [str_data_append, List.append_assoc]
  simp

/-- C3: the License API client's operation mode is a pure function of the
primary key, the shared secret, and the test-environment flag: test mode
holds exactly when the primary key starts with the test prefix or the
environment flag is set; enhanced (signed) mode holds exactly when a
shared secret is present (truthy) and test mode is not active; limited
(unsigned, key-only header) mode holds exactly when the shared secret is
absent and test mode is not active. -/
theorem C3_mode_classification (apiKey : String) (sharedKey : Option String)
    (nodeEnvTest : Bool) :
    (clientAuthMode apiKey sharedKey nodeEnvTest = .test
      ↔ (jsStartsWith apiKey "test-" || nodeEnvTest) = true)
    ∧ (clientAuthMode apiKey sharedKey nodeEnvTest = .enhanced
      ↔ jsTruthy sharedKey = true
        ∧ (jsStartsWith apiKey "test-" || nodeEnvTest) = false)
    ∧ (clientAuthMode apiKey sharedKey nodeEnvTest = .limited
      ↔ jsTruthy sharedKey = false
        ∧ (jsStartsWith apiKey "test-" || nodeEnvTest) = false) := by
  unfold clientAuthMode
  cases h1 : jsStartsWith apiKey "test-" || nodeEnvTest <;>
    cases h2 : jsTruthy sharedKey <;>
      simp [h1, h2]

/-- C4: for every shared-secret value, if the primary key starts with the
test prefix then the Authorization header built by the License API client
carries the fixed placeholder signature `test-signature` and is independent
of the shared secret and of the crypto primitive: no real HMAC is
computed. -/
theorem C4_test_mode_placeholder (h1 h2 : String → String → String)
    (apiKey : String) (sk1 sk2 : Option String) (env : Bool) (now : String)
    (htest : jsStartsWith apiKey "test-" = true) :
    interceptRequest h1 apiKey sk1 env now = interceptRequest h2 apiKey sk2 env now
    ∧ (interceptRequest h1 apiKey sk1 env now).authorization
      = "algorithm=\"hmac-sha256\",headers=\"date\",signature=\"test-signature\",apikey=\""
        ++ apiKey ++ "\"" := by
  unfold interceptRequest
  simp [htest]

/-- Witness for C4 at a concrete input: the key `test-key` starts with
`test-`, and two clients differing in both shared secret and crypto
primitive produce the identical placeholder header. -/
theorem C4_test_mode_placeholder_witness :
    jsStartsWith "test-key" "test-" = true
    ∧ (interceptRequest oracleHmac "test-key" (some "secret") false "Mon, 19 Oct 2020 15:42:27 GMT"
        = interceptRequest (fun _ m => m) "test-key" none false "Mon, 19 Oct 2020 15:42:27 GMT"
      ∧ (interceptRequest oracleHmac "test-key" (some "secret") false "Mon, 19 Oct 2020 15:42:27 GMT").authorization
        = "algorithm=\"hmac-sha256\",headers=\"date\",signature=\"test-signature\",apikey=\""
          ++ "test-key" ++ "\"") :=
  ⟨by decide,
   C4_test_mode_placeholder oracleHmac (fun _ m => m) "test-key" (some "secret")
     none false "Mon, 19 Oct 2020 15:42:27 GMT" (by decide)⟩

/-- Counterexample to C5 as stated: with an absent shared secret but a
primary key starting with the test prefix, the tri-modal client emits a
header that does contain a `signature=` attribute (the test placeholder);
moreover the legacy `http.ts` client emits a `signature=` attribute even
with an empty shared key. -/
theorem C5_empty_secret_counterexample :
    jsTruthy (none : Option String) = false
    ∧ "signature=".toList <:+:
        (interceptRequest oracleHmac "test-key" none false "D").authorization.toList
    ∧ "signature=".toList <:+:
        (interceptRequestLegacy oracleHmac "key" "" "D").authorization.toList := by
  refine ⟨by decide, by decide, by decide⟩

/-- C5 (amended): for every primary key that does not start with the test
prefix, when the test-environment flag is unset and the shared secret is
empty or absent, the Authorization header produced by the License API
client is exactly `apikey="<primary key>"`, is independent of the crypto
primitive (no signature is computed at all), and — provided the key itself
does not contain the text `signature=` — contains no `signature=`
attribute. -/
theorem C5_limited_mode_no_signature (h1 h2 : String → String → String)
    (apiKey : String) (sharedKey : Option String) (now : String)
    (hsk : jsTruthy sharedKey = false)
    (htest : jsStartsWith apiKey "test-" = false)
    (hclean : ¬ "signature=".toList <:+: apiKey.toList) :
    interceptRequest h1 apiKey sharedKey false now
      = interceptRequest h2 apiKey sharedKey false now
    ∧ (interceptRequest h1 apiKey sharedKey false now).authorization
      = "apikey=\"" ++ apiKey ++ "\""
    ∧ ¬ "signature=".toList <:+:
        (interceptRequest h1 apiKey sharedKey false now).authorization.toList := by
  have hbranch : ∀ h : String → String → String,
      interceptRequest h apiKey sharedKey false now
        = { date := now, authorization := "apikey=\"" ++ apiKey ++ "\"" } := by
    intro h
    unfold interceptRequest
    simp [htest, hsk]
  refine ⟨(hbranch h1).trans (hbranch h2).symm, ?_, ?_⟩
  · rw [hbranch h1]
  · rw [hbranch h1]
    exact fun hin => signature_not_infix_apikey_wrap hclean hin

/-- Witness for C5 (amended) at a concrete input: key `prod-key`, absent
shared secret, two different crypto primitives. -/
theorem C5_limited_mode_no_signature_witness :
    (jsTruthy (none : Option String) = false
      ∧ jsStartsWith "prod-key" "test-" = false
      ∧ ¬ "signature=".toList <:+: "prod-key".toList)
    ∧ (interceptRequest oracleHmac "prod-key" none false "D"
        = interceptRequest (fun _ m => m) "prod-key" none false "D"
      ∧ (interceptRequest oracleHmac "prod-key" none false "D").authorization
        = "apikey=\"" ++ "prod-key" ++ "\""
      ∧ ¬ "signature=".toList <:+:
          (interceptRequest oracleHmac "prod-key" none false "D").authorization.toList) :=
  ⟨⟨by decide, by decide, by decide⟩,
   C5_limited_mode_no_signature oracleHmac (fun _ m => m) "prod-key" none "D"
     (by decide) (by decide) (by decide)⟩

/-- C6: `generateLicenseApiAuthHeader` receives one fresh timestamp per
call (the single `now` read of the clock) and returns that same timestamp,
byte for byte, both as the separate `date` output and as the `date` value
covered by the signature inside the canonical signing string; the
signature it embeds is computed over exactly that timestamp. -/
theorem C6_fresh_timestamp_binding (hmac : String → String → String)
    (sharedKey apiKey now : String) (licenseKey hardwareId : Option String) :
    (generateLicenseApiAuthHeader hmac sharedKey apiKey licenseKey hardwareId now).date
      = now
    ∧ (generateLicenseApiAuthHeader hmac sharedKey apiKey licenseKey hardwareId now).authorization
      = "algorithm=\"hmac-sha256\",headers=\"date\",signature=\""
        ++ hmac sharedKey (licenseApiSigningString apiKey
            ((generateLicenseApiAuthHeader hmac sharedKey apiKey licenseKey hardwareId now).date)
            licenseKey hardwareId)
        ++ "\",apikey=\"" ++ apiKey ++ "\"" :=
  ⟨rfl, rfl⟩

/-- C7: `validateLicenseApiAuth` raises a configuration failure if and only
if the primary key is missing (JS-falsy: absent or empty); for every
shared-secret value with a present primary key it returns without raising,
whatever the test-environment flag. -/
theorem C7_validate_raises_iff_missing_key (apiKey sharedKey : Option String)
    (env : Bool) :
    (∃ e, validateLicenseApiAuth apiKey sharedKey env = .error e)
      ↔ jsTruthy apiKey = false := by
  unfold validateLicenseApiAuth
  cases h : jsTruthy apiKey
  · simp [h]
  · simp [h]
    split_ifs <;> simp

/-- C8: `generateLicenseApiSignature` is a total pure function: for every
combination of inputs — including empty or malformed shared secret, primary
key, timestamp and identifiers — it returns the string obtained by applying
the (total, per the Node API contract for string arguments) HMAC-SHA256
base64 primitive to the canonical signing string; it is straight-line
string concatenation with no error branch, so it never throws. -/
theorem C8_signature_total (hmac : String → String → String)
    (sharedKey apiKey date : String) (licenseKey hardwareId : Option String) :
    ∃ out : String,
      generateLicenseApiSignature hmac sharedKey apiKey date licenseKey hardwareId = out
      ∧ out = hmac sharedKey (licenseApiSigningString apiKey date licenseKey hardwareId) :=
  ⟨hmac sharedKey (licenseApiSigningString apiKey date licenseKey hardwareId), rfl, rfl⟩

/-- C9: `generateManagementApiAuthHeader` returns exactly the fixed prefix
literal `Api-Key`, a single separating space, then the key unchanged, with
no hashing, no time-dependence and no other transformation. -/
theorem C9_management_header (apiKey : String) :
    generateManagementApiAuthHeader apiKey = "Api-Key" ++ " " ++ apiKey := by
  unfold generateManagementApiAuthHeader
  rw [(by decide : ("Api-Key" ++ " " : String) = "Api-Key ")]

/-- C10: in `generateLicenseApiSignature`, an empty-string license
identifier or empty-string hardware identifier is treated the same as an
absent one: whenever either of the two is the empty string, the base-only
canonical string is signed, so the call produces exactly the same signature
as a call with both identifiers omitted (for the same secret, key and
timestamp), silently and with no validation error. -/
theorem C10_empty_identifier_base_string (hmac : String → String → String)
    (sharedKey apiKey date : String) (licenseKey hardwareId : Option String)
    (h : licenseKey = some "" ∨ hardwareId = some "") :
    licenseApiSigningString apiKey date licenseKey hardwareId
      = licenseApiSigningString apiKey date none none
    ∧ generateLicenseApiSignature hmac sharedKey apiKey date licenseKey hardwareId
      = generateLicenseApiSignature hmac sharedKey apiKey date none none := by
  have hstr : licenseApiSigningString apiKey date licenseKey hardwareId
      = licenseApiSigningString apiKey date none none := by
    rcases h with h | h <;> subst h <;>
      unfold licenseApiSigningString <;>
      simp [jsTruthy_some_empty, jsTruthy_none]
  exact ⟨hstr, by unfold generateLicenseApiSignature; rw [hstr]⟩

/-- Witness for C10 at a concrete input: an empty license key with a
non-empty hardware id yields the base-only signing string and the same
signature as omitting both identifiers. -/
theorem C10_empty_identifier_base_string_witness :
    ((some "" : Option String) = some "" ∨ (some "HWID-1" : Option String) = some "")
    ∧ (licenseApiSigningString "ak" "Mon, 19 Oct 2020 15:42:27 GMT" (some "") (some "HWID-1")
        = licenseApiSigningString "ak" "Mon, 19 Oct 2020 15:42:27 GMT" none none
      ∧ generateLicenseApiSignature oracleHmac "sk" "ak" "Mon, 19 Oct 2020 15:42:27 GMT"
          (some "") (some "HWID-1")
        = generateLicenseApiSignature oracleHmac "sk" "ak" "Mon, 19 Oct 2020 15:42:27 GMT"
          none none) :=
  ⟨Or.inl rfl,
   C10_empty_identifier_base_string oracleHmac "sk" "ak" "Mon, 19 Oct 2020 15:42:27 GMT"
     (some "") (some "HWID-1") (Or.inl rfl)⟩
